import Mathlib

/-!
Verification development for the OpenAI-style tools layer of
`vllm/entrypoints/openai/tools.py` (classes `ToolsCallsTemplate`,
`OpenAIToolsPrompter` and `ChatPromptCapture`).

The Python code is shallowly embedded:
* decoded JSON values (results of `json.loads`) become the inductive `PyVal`;
* the Python exceptions that the embedded fragments can raise become `PyError`;
* `json.loads` and `json.dumps` are external library calls, so they are passed
  as explicit function parameters (`loads`, `dumps`) to the embedded code;
* the jinja template rendering is likewise external and is passed as the
  parameter `render` (one function, covering the `FUNCTIONS_LIST` context);
* the CPython identity test `tool_choice is not "auto"` (an `is` comparison
  against a string literal, whose outcome depends on interning) is modelled by
  an oracle `isLit : String → Bool` constrained by `isLit s = true → s = "auto"`
  (identity of string objects implies equality of their contents);
* in-place mutation becomes explicit state passing: `inject_prompt` returns the
  request state after the call together with `Option PyError` (`some e` means
  the Python call raised `e`; the returned request is the state the mutated
  object was left in), and `make_calls_list` similarly returns the final
  `calls_list` together with the optional exception.
-/

namespace VllmTools

/-- Python values as produced by `json.loads` (`None`, `bool`, `int`, `str`,
`list`, `dict`).  JSON numbers with a fractional part are irrelevant to every
embedded code path (they are only ever compared against `PyVal.none` or fed to
the external `dumps`), so integers stand in for numbers. -/
inductive PyVal where
  | none : PyVal
  | bool (b : Bool) : PyVal
  | int (n : Int) : PyVal
  | str (s : String) : PyVal
  | list (l : List PyVal) : PyVal
  | dict (d : List (String × PyVal)) : PyVal

/-- The Python exceptions the embedded fragments can raise. -/
inductive PyError where
  | typeError : PyError
  | keyError : PyError
  | indexError : PyError
  | valueError : PyError
deriving DecidableEq

/-- Python's `key in v` for a string `key`: key membership for a `dict`,
substring test for a `str`, element membership for a `list`, and a `TypeError`
for the non-container values (`None`, `bool`, `int`). -/
def py_in (key : String) (v : PyVal) : Except PyError Bool :=
  match v with
  | PyVal.dict d => Except.ok (List.lookup key d).isSome
  | PyVal.str s => Except.ok (decide (key.toList <:+: s.toList))
  | PyVal.list l =>
    Except.ok (l.any (fun x => match x with | PyVal.str t => t == key | _ => false))
  | _ => Except.error PyError.typeError

/-- Python's `v[key]` for a string `key`: dict lookup (raising `KeyError` when
the key is absent) and a `TypeError` on every other value (string and list
subscripts must be integers). -/
def py_getitem (v : PyVal) (key : String) : Except PyError PyVal :=
  match v with
  | PyVal.dict d =>
    match List.lookup key d with
    | Option.some x => Except.ok x
    | Option.none => Except.error PyError.keyError
  | _ => Except.error PyError.typeError

/-- Python list subscripting `l[i]` with an `int` index: ordinary indexing for
`0 ≤ i < len`, wrap-around for `-len ≤ i < 0`, `IndexError` otherwise. -/
def py_list_get (l : List PyVal) (i : Int) : Except PyError PyVal :=
  if 0 ≤ i ∧ i < (l.length : Int) then Except.ok (l.getD i.toNat PyVal.none)
  else if -(l.length : Int) ≤ i ∧ i < 0 then
    Except.ok (l.getD (i + (l.length : Int)).toNat PyVal.none)
  else Except.error PyError.indexError

/-- Using a Python value as a `str` (the tool name is concatenated into the
record id with `+`, which raises `TypeError` on a non-string). -/
def py_as_str (v : PyVal) : Except PyError String :=
  match v with
  | PyVal.str s => Except.ok s
  | _ => Except.error PyError.typeError

/-- Worker for `py_split` on character lists.  The first separator character
is kept apart (`a`) so that the separator is never empty here; the `fuel`
argument only drives structural recursion and is always called with
`fuel = length of the input`, which the recursion never exhausts since every
step consumes at least one character. -/
def splitCharsFuel (a : Char) (sepRest : List Char) : Nat → List Char → List (List Char)
  | _, [] => [[]]
  | 0, s => [s]
  | fuel + 1, c :: rest =>
    if (a :: sepRest).isPrefixOf (c :: rest) then
      [] :: splitCharsFuel a sepRest fuel ((c :: rest).drop (sepRest.length + 1))
    else
      match splitCharsFuel a sepRest fuel rest with
      | [] => [[c]]
      | g :: gs => (c :: g) :: gs

/-- Python's `s.split(sep)` for a non-empty `sep`: the list of the segments of
`s` between the leftmost non-overlapping occurrences of `sep`, keeping empty
segments (`"xx".split("x") == ["", "", ""]`, `"".split("x") == [""]`).
`s.split("")` raises `ValueError`, modelled by `Option.none`. -/
def py_split (s : String) (sep : String) : Option (List String) :=
  match sep.toList with
  | [] => Option.none
  | a :: rest => Option.some ((splitCharsFuel a rest s.toList.length s.toList).map String.mk)

/-! ## Protocol data (the fields the embedded code touches) -/

/-- `protocol.Function`: the function part of an emitted tool call. -/
structure Function where
  name : String
  arguments : String
deriving DecidableEq

/-- `protocol.ChatCompletionMessageToolCall` (one-shot record). -/
structure ChatCompletionMessageToolCall where
  id : String
  type : String
  function : Function
deriving DecidableEq

/-- `protocol.ChoiceDeltaToolCall` (streaming record, index-addressed). -/
structure ChoiceDeltaToolCall where
  index : Int
  id : String
  type : String
  function : Function
deriving DecidableEq

/-- The function part of a declared tool (`tool.function.name` is the only
field read by the embedded code). -/
structure FunctionDefinition where
  name : String
deriving DecidableEq

/-- `protocol.ChatCompletionToolParam`: a declared tool. -/
structure ChatCompletionToolParam where
  type : String
  function : FunctionDefinition
deriving DecidableEq

/-- One conversation turn; the injector only rewrites `content` of the first
turn, every other field (modelled by `role`) is untouched. -/
structure ChatMessage where
  role : String
  content : String
deriving DecidableEq

/-- `request.messages` is either a raw prompt string or a list of turns. -/
inductive Messages where
  | str (s : String) : Messages
  | list (l : List ChatMessage) : Messages
deriving DecidableEq

/-- The fields of `protocol.ChatCompletionRequest` read or written by
`inject_prompt`. -/
structure ChatCompletionRequest where
  messages : Messages
  tools : Option (List ChatCompletionToolParam)
  tool_choice : Option String
deriving DecidableEq

/-! ## `ToolsCallsTemplate.renderToolsList` (tools.py lines 40-57)

`render` is the external jinja rendering in the `FUNCTIONS_LIST` context,
taking the (already normalized) `tool_choice` and the `tools_list` argument. -/

/-- `renderToolsList`: normalizes a literal `"auto"` choice to `None`; with a
named choice it scans for the first declared tool of type `"function"` with
that exact name and renders the singleton list, returning Python `None`
(`Option.none`) if no tool matches; with no choice it renders the full list. -/
def renderToolsList (render : Option String → List ChatCompletionToolParam → String)
    (tool_choice : Option String) (tools_list : List ChatCompletionToolParam) :
    Option String :=
  let tc := if tool_choice = Option.some "auto" then Option.none else tool_choice
  match tc with
  | Option.some choice =>
    match tools_list.find? (fun tool => tool.type == "function" && tool.function.name == choice) with
    | Option.some tool => Option.some (render (Option.some choice) [tool])
    | Option.none => Option.none
  | Option.none => Option.some (render Option.none tools_list)

/-! ## `OpenAIToolsPrompter.inject_prompt` (tools.py lines 92-103) -/

/-- Line 96 of tools.py:
`request.tool_choice if (request.tool_choice is not None and request.tool_choice is not "auto") else None`.
The `is not "auto"` identity test is the oracle `isLit` (`isLit s` answers
whether the object `s` *is* the interned literal `"auto"`). -/
def select_tool_choice (isLit : String → Bool) (tool_choice : Option String) :
    Option String :=
  match tool_choice with
  | Option.none => Option.none
  | Option.some tc => if isLit tc then Option.none else Option.some tc

/-- `inject_prompt`: if tools are declared, non-empty and the reserved call
token is defined, render the tool list and prepend the rendered text to the
raw prompt string, or to the content of the first turn of a non-empty turn
list.  When `renderToolsList` returns Python `None` (unknown named choice),
the string concatenation `None + str` raises a `TypeError` before any
mutation.  The result pairs the optional raised exception with the request
state after the call. -/
def inject_prompt (render : Option String → List ChatCompletionToolParam → String)
    (isLit : String → Bool) (call_token_str : Option String)
    (request : ChatCompletionRequest) : Option PyError × ChatCompletionRequest :=
  match request.tools with
  | Option.none => (Option.none, request)
  | Option.some tools =>
    if call_token_str.isSome ∧ tools.length ≠ 0 then
      match renderToolsList render (select_tool_choice isLit request.tool_choice) tools with
      | Option.some text_inject =>
        match request.messages with
        | Messages.str s =>
          (Option.none, { request with messages := Messages.str (text_inject ++ s) })
        | Messages.list (m :: rest) =>
          (Option.none,
           { request with
             messages := Messages.list ({ m with content := text_inject ++ m.content } :: rest) })
        | Messages.list [] => (Option.none, request)
      | Option.none =>
        match request.messages with
        | Messages.str _ => (Option.some PyError.typeError, request)
        | Messages.list (_ :: _) => (Option.some PyError.typeError, request)
        | Messages.list [] => (Option.none, request)
    else (Option.none, request)

/-! ## `ChatPromptCapture` (tools.py lines 105-176) -/

/-- The mutable state of `ChatPromptCapture.__init__`. -/
structure ChatPromptCapture where
  content : String
  maybe_function_call : Bool
  is_function_call : Bool
  prefix_size : Nat
  calls_list : List PyVal

/-- `ChatPromptCapture.reset` (lines 114-120). -/
def reset (c : ChatPromptCapture) (reset_calls_list : Bool) : ChatPromptCapture :=
  { content := "",
    maybe_function_call := false,
    is_function_call := false,
    prefix_size := 0,
    calls_list := if reset_calls_list then [] else c.calls_list }

/-- `ChatPromptCapture.num_calls` (lines 122-123). -/
def num_calls (c : ChatPromptCapture) : Nat := c.calls_list.length

/-- The loop of `make_calls_list` over the segments of the split buffer.
For each non-empty segment: a segment `json.loads` rejects
(`loads seg = Option.none`, i.e. `JSONDecodeError`) is skipped by the
`except` clause; on a decoded value the membership test `"call" in call_dict`
either raises (uncaught, aborting the loop with the calls appended so far) or
decides whether the value is appended. -/
def make_calls_list_loop (loads : String → Option PyVal) :
    List String → List PyVal → Option PyError × List PyVal
  | [], acc => (Option.none, acc)
  | v_call :: rest, acc =>
    if v_call.length ≠ 0 then
      match loads v_call with
      | Option.some call_dict =>
        match py_in "call" call_dict with
        | Except.error e => (Option.some e, acc)
        | Except.ok true => make_calls_list_loop loads rest (acc ++ [call_dict])
        | Except.ok false => make_calls_list_loop loads rest acc
      | Option.none => make_calls_list_loop loads rest acc
    else make_calls_list_loop loads rest acc

/-- `ChatPromptCapture.make_calls_list` (lines 125-135): split the accumulated
`content` on the prompter's reserved call token and run the loop on the
segments, starting from the current `calls_list`.  `loads` is the external
`json.loads`; the pair is (optional uncaught exception, final `calls_list`). -/
def make_calls_list (loads : String → Option PyVal) (func_call_token : String)
    (content : String) (calls_list : List PyVal) : Option PyError × List PyVal :=
  match py_split content func_call_token with
  | Option.none => (Option.some PyError.valueError, calls_list)
  | Option.some segments => make_calls_list_loop loads segments calls_list

/-- `ChatPromptCapture.to_ChatCompletionMessageToolCall` (lines 137-149).
`dumps` is the external `json.dumps`.  Mirrors the source exactly: the guard
`len(self.calls_list) and call_id < len(self.calls_list)` does not rule out
negative indices; `call["arguments"]`/`call["call"]` subscripts follow Python
semantics on the stored value. -/
def to_ChatCompletionMessageToolCall (dumps : PyVal → String)
    (calls_list : List PyVal) (call_id : Int) :
    Except PyError (Option ChatCompletionMessageToolCall) :=
  if calls_list.length ≠ 0 ∧ call_id < (calls_list.length : Int) then
    match py_list_get calls_list call_id with
    | Except.error e => Except.error e
    | Except.ok call =>
      match py_in "arguments" call with
      | Except.error e => Except.error e
      | Except.ok hasArgs =>
        match (if hasArgs then py_getitem call "arguments" else Except.ok PyVal.none) with
        | Except.error e => Except.error e
        | Except.ok arguments =>
          match py_getitem call "call" with
          | Except.error e => Except.error e
          | Except.ok nameV =>
            match py_as_str nameV with
            | Except.error e => Except.error e
            | Except.ok name =>
              Except.ok (Option.some
                { id := "call_" ++ name ++ "_" ++ toString call_id,
                  type := "function",
                  function :=
                    { name := name,
                      arguments :=
                        match arguments with
                        | PyVal.none => ""
                        | a => dumps a } })
  else Except.ok Option.none

/-- The record built by `to_ChoiceDeltaToolCall` from the one-shot record
(`ChoiceDeltaToolCall(index=call_id, id=mesg.id, type=mesg.type,
function=mesg.function)`). -/
def delta_of_mesg (call_id : Int) (mesg : ChatCompletionMessageToolCall) :
    ChoiceDeltaToolCall :=
  { index := call_id, id := mesg.id, type := mesg.type, function := mesg.function }

/-- `ChatPromptCapture.to_ChoiceDeltaToolCall` (lines 161-169). -/
def to_ChoiceDeltaToolCall (dumps : PyVal → String) (calls_list : List PyVal)
    (call_id : Int) : Except PyError (Option ChoiceDeltaToolCall) :=
  match to_ChatCompletionMessageToolCall dumps calls_list call_id with
  | Except.error e => Except.error e
  | Except.ok Option.none => Except.ok Option.none
  | Except.ok (Option.some mesg) => Except.ok (Option.some (delta_of_mesg call_id mesg))

/-- The `for call_id in range(calls_count)` append loops of the two list
conversions: apply `f` to every index in order, aborting on the first raised
exception (the partially built local list is then lost with the raise). -/
def mapExceptList {A : Type} (f : Nat → Except PyError A) :
    List Nat → Except PyError (List A)
  | [] => Except.ok []
  | i :: rest =>
    match f i with
    | Except.error e => Except.error e
    | Except.ok x =>
      match mapExceptList f rest with
      | Except.error e => Except.error e
      | Except.ok xs => Except.ok (x :: xs)

/-- `ChatPromptCapture.to_ChatCompletionMessageToolCallList` (lines 151-159). -/
def to_ChatCompletionMessageToolCallList (dumps : PyVal → String)
    (calls_list : List PyVal) :
    Except PyError (List (Option ChatCompletionMessageToolCall)) :=
  mapExceptList (fun call_id => to_ChatCompletionMessageToolCall dumps calls_list (call_id : Int))
    (List.range calls_list.length)

/-- `ChatPromptCapture.to_ChoiceDeltaToolCallList` (lines 171-176). -/
def to_ChoiceDeltaToolCallList (dumps : PyVal → String) (calls_list : List PyVal) :
    Except PyError (List (Option ChoiceDeltaToolCall)) :=
  mapExceptList (fun call_id => to_ChoiceDeltaToolCall dumps calls_list (call_id : Int))
    (List.range calls_list.length)

/-! ## Well-formedness of stored calls -/

/-- A stored raw call of the shape the converters expect: a dict whose
`"call"` entry holds a string (the tool name). -/
def WFCall (v : PyVal) : Prop :=
  ∃ d name, v = PyVal.dict d ∧ List.lookup "call" d = Option.some (PyVal.str name)

/-! ## Concrete instances of the external collaborators and concrete inputs
(used to evaluate the embedded code at specific points) -/

/-- A concrete `json.dumps` stand-in (the embedded code treats `dumps` as an
opaque external function). -/
def dumps0 : PyVal → String := fun _ => "DUMPED"

/-- A concrete `FUNCTIONS_LIST` template rendering stand-in. -/
def render0 : Option String → List ChatCompletionToolParam → String := fun _ _ => "TOOLS "

/-- A concrete outcome of the `is "auto"` identity test: no string object is
the interned literal (what CPython does for strings built by a JSON parser). -/
def isLit0 : String → Bool := fun _ => false

/-- `json.loads` on the input `"0"`: Python decodes the JSON text `0` to the
integer `0`. -/
def dec_scalar : String → Option PyVal :=
  fun s => if s = "0" then Option.some (PyVal.int 0) else Option.none

/-- `json.loads` on the six-character JSON text `"call"`: Python decodes it to
the string `call`. -/
def dec_strcall : String → Option PyVal :=
  fun s => if s = "\"call\"" then Option.some (PyVal.str "call") else Option.none

/-- A declared tool named `time`. -/
def tool_time : ChatCompletionToolParam :=
  { type := "function", function := { name := "time" } }

/-- Request with `tool_choice = "weather"`, `tools = [{name: "time"}]` and an
empty turn list. -/
def req_empty_turns : ChatCompletionRequest :=
  { messages := Messages.list [],
    tools := Option.some [tool_time],
    tool_choice := Option.some "weather" }

/-- Request with `tool_choice = "weather"`, `tools = [{name: "time"}]` and a
raw prompt string. -/
def req_raw_prompt : ChatCompletionRequest :=
  { messages := Messages.str "hi",
    tools := Option.some [tool_time],
    tool_choice := Option.some "weather" }

/-- Request declaring a tool, no tool choice, one user turn. -/
def req_one_turn : ChatCompletionRequest :=
  { messages := Messages.list [{ role := "user", content := "hi" }],
    tools := Option.some [tool_time],
    tool_choice := Option.none }

/-- A well-formed stored call `{"call": "a"}`. -/
def call_a : PyVal := PyVal.dict [("call", PyVal.str "a")]

/-- A well-formed stored call `{"call": "b", "arguments": {"x": 1}}`. -/
def call_b : PyVal :=
  PyVal.dict [("call", PyVal.str "b"), ("arguments", PyVal.dict [("x", PyVal.int 1)])]

/-! # Theorems -/

/-! ## Shared helper lemmas -/

/-- When the request declares a non-empty tool list and the reserved token is
defined, `inject_prompt` reduces to the render-then-splice step. -/
lemma inject_prompt_with_tools (render : Option String → List ChatCompletionToolParam → String)
    (isLit : String → Bool) (tokS : String) (req : ChatCompletionRequest)
    (tools : List ChatCompletionToolParam)
    (h1 : req.tools = Option.some tools) (h2 : tools ≠ []) :
    inject_prompt render isLit (Option.some tokS) req =
      match renderToolsList render (select_tool_choice isLit req.tool_choice) tools with
      | Option.some text_inject =>
        match req.messages with
        | Messages.str s =>
          (Option.none, { req with messages := Messages.str (text_inject ++ s) })
        | Messages.list (m :: rest) =>
          (Option.none,
           { req with
             messages := Messages.list ({ m with content := text_inject ++ m.content } :: rest) })
        | Messages.list [] => (Option.none, req)
      | Option.none =>
        match req.messages with
        | Messages.str _ => (Option.some PyError.typeError, req)
        | Messages.list (_ :: _) => (Option.some PyError.typeError, req)
        | Messages.list [] => (Option.none, req) := by
  have hlen : tools.length ≠ 0 := by simpa using h2
  simp [inject_prompt, h1, hlen]

/-- Under the identity-implies-equality constraint on the `is "auto"` oracle,
a named choice different from `"auto"` survives line 96 unchanged. -/
lemma select_tool_choice_named (isLit : String → Bool) (tc : String)
    (h6 : ∀ s, isLit s = true → s = "auto") (hne : tc ≠ "auto") :
    select_tool_choice isLit (Option.some tc) = Option.some tc := by
  have hf : isLit tc = false := by
    cases hl : isLit tc
    · rfl
    · exact absurd (h6 tc hl) hne
  simp [select_tool_choice, hf]

/-- If no declared tool of type `"function"` bears the chosen name,
`renderToolsList` returns Python `None`. -/
lemma renderToolsList_not_found (render : Option String → List ChatCompletionToolParam → String)
    (tc : String) (tools : List ChatCompletionToolParam) (hne : tc ≠ "auto")
    (h4 : ∀ t ∈ tools, ¬(t.type = "function" ∧ t.function.name = tc)) :
    renderToolsList render (Option.some tc) tools = Option.none := by
  have hfind : tools.find? (fun tool => tool.type == "function" && tool.function.name == tc)
      = Option.none := by
    rw [List.find?_eq_none]
    intro t ht
    simp only [Bool.and_eq_true, beq_iff_eq]
    exact fun hc => h4 t ht ⟨hc.1, hc.2⟩
  simp [renderToolsList, hne, hfind]

/-! ## C9 -/

/-- C9: `reset(reset_calls_list)` always clears the buffer (`content`), both
state flags (`maybe_function_call`, `is_function_call`) and the matched-prefix
counter (`prefix_size`), and leaves the captured `calls_list` unchanged unless
`reset_calls_list` is set, in which case it is cleared too. -/
theorem C9_reset_clears_scanner_state (c : ChatPromptCapture) (b : Bool) :
    (reset c b).content = "" ∧
    (reset c b).maybe_function_call = false ∧
    (reset c b).is_function_call = false ∧
    (reset c b).prefix_size = 0 ∧
    (reset c b).calls_list = (if b then [] else c.calls_list) := by
  cases b <;> simp [reset]

/-! ## C1 -/

/-- C1, counterexample: for the request of the spec scenario
(`tool_choice = "weather"`, `tools = [{name: "time"}]`) but with an empty turn
list, `inject_prompt` finishes normally (first component `Option.none`: no
exception raised, nothing signalled to the caller) — so it does not signal an
`UnknownToolChoice` error on every request whose named choice is absent from
the tool list.  (The conversation is still left unmodified and no fallback
rendering happens.) -/
theorem C1_counterexample :
    req_empty_turns.tool_choice = Option.some "weather" ∧
    req_empty_turns.tools = Option.some [tool_time] ∧
    tool_time.function.name ≠ "weather" ∧
    inject_prompt render0 isLit0 (Option.some "TOK") req_empty_turns
      = (Option.none, req_empty_turns) := by
  refine ⟨rfl, rfl, by decide, rfl⟩

/-- C1, amended: if `tool_choice` names a specific tool (`≠ "auto"`), no
declared tool of type `"function"` has that exact name, the declared tool list
is non-empty and the reserved token is defined, then `inject_prompt` never
renders or injects anything — the request, its conversation included, is left
exactly as it was — and, whenever the conversation is a raw prompt string or a
non-empty turn list, an error does reach the caller: not a dedicated
`UnknownToolChoice` signal but the `TypeError` raised by concatenating the
`None` returned by `renderToolsList` with the message text.  With an empty
turn list no error is signalled at all (the splice loop never runs). -/
theorem C1_amended_unknown_choice
    (render : Option String → List ChatCompletionToolParam → String)
    (isLit : String → Bool) (tokS : String)
    (req : ChatCompletionRequest) (tools : List ChatCompletionToolParam) (tc : String)
    (h1 : req.tools = Option.some tools) (h2 : tools ≠ [])
    (h3 : req.tool_choice = Option.some tc) (h5 : tc ≠ "auto")
    (h4 : ∀ t ∈ tools, ¬(t.type = "function" ∧ t.function.name = tc))
    (h6 : ∀ s, isLit s = true → s = "auto") :
    (inject_prompt render isLit (Option.some tokS) req).2 = req ∧
    (∀ s, req.messages = Messages.str s →
      (inject_prompt render isLit (Option.some tokS) req).1 = Option.some PyError.typeError) ∧
    (∀ m rest, req.messages = Messages.list (m :: rest) →
      (inject_prompt render isLit (Option.some tokS) req).1 = Option.some PyError.typeError) ∧
    (req.messages = Messages.list [] →
      (inject_prompt render isLit (Option.some tokS) req).1 = Option.none) := by
  have hrw := inject_prompt_with_tools render isLit tokS req tools h1 h2
  rw [h3, select_tool_choice_named isLit tc h6 h5,
    renderToolsList_not_found render tc tools h5 h4] at hrw
  cases hm : req.messages with
  | str s => rw [hm] at hrw; simp [hrw, hm]
  | list ml =>
    cases ml with
    | nil => rw [hm] at hrw; simp [hrw, hm]
    | cons m rest => rw [hm] at hrw; simp [hrw, hm]

/-- C1, witness for the amended theorem: on the raw-prompt request of the
scenario the call raises `TypeError` and leaves the request unmodified. -/
theorem C1_amended_unknown_choice_witness :
    inject_prompt render0 isLit0 (Option.some "TOK") req_raw_prompt
      = (Option.some PyError.typeError, req_raw_prompt) := by
  have T := C1_amended_unknown_choice render0 isLit0 "TOK" req_raw_prompt [tool_time]
    "weather" rfl (by simp) rfl (by decide) (by decide)
    (by intro s hs; simp [isLit0] at hs)
  exact Prod.ext (T.2.1 "hi" rfl) T.1

/-! ## C8 -/

/-- C8: `inject_prompt` modifies only the conversation text.  With no
declared tools, an empty tool list or an undefined reserved token the request
comes back unchanged (and no exception).  Otherwise, once the tool list
renders to some text, that text is prepended to the raw prompt string, or to
the content of the first turn only — turn order, the other turns, the first
turn's other fields, and the request's `tools` and `tool_choice` fields are
all untouched (the record updates rewrite nothing but `messages`, resp. the
first turn's `content`). -/
theorem C8_inject_prompt_frame
    (render : Option String → List ChatCompletionToolParam → String)
    (isLit : String → Bool) (tok : Option String) (req : ChatCompletionRequest) :
    (req.tools = Option.none → inject_prompt render isLit tok req = (Option.none, req)) ∧
    (req.tools = Option.some [] → inject_prompt render isLit tok req = (Option.none, req)) ∧
    (tok = Option.none → inject_prompt render isLit tok req = (Option.none, req)) ∧
    (∀ tokS tools text, tok = Option.some tokS → req.tools = Option.some tools → tools ≠ [] →
      renderToolsList render (select_tool_choice isLit req.tool_choice) tools
        = Option.some text →
      ((∀ s, req.messages = Messages.str s →
        inject_prompt render isLit tok req
          = (Option.none, { req with messages := Messages.str (text ++ s) })) ∧
       (∀ m rest, req.messages = Messages.list (m :: rest) →
        inject_prompt render isLit tok req
          = (Option.none,
             { req with
               messages := Messages.list ({ m with content := text ++ m.content } :: rest) })))) := by
  refine ⟨?_, ?_, ?_, ?_⟩
  · intro h; simp [inject_prompt, h]
  · intro h; simp [inject_prompt, h]
  · intro h
    cases hT : req.tools with
    | none => simp [inject_prompt, hT]
    | some tools => simp [inject_prompt, hT, h]
  · intro tokS tools text htok h1 h2 hrender
    have hrw := inject_prompt_with_tools render isLit tokS req tools h1 h2
    rw [hrender] at hrw
    subst htok
    constructor
    · intro s hs; rw [hs] at hrw; simp [hrw]
    · intro m rest hs; rw [hs] at hrw; simp [hrw]

/-- C8, witness: on a request with one declared tool, no tool choice and a
single user turn, the rendered text is prepended to that turn's content and
everything else is unchanged. -/
theorem C8_inject_prompt_frame_witness :
    inject_prompt render0 isLit0 (Option.some "TOK") req_one_turn
      = (Option.none,
         { messages := Messages.list [{ role := "user", content := "TOOLS hi" }],
           tools := Option.some [tool_time],
           tool_choice := Option.none }) := by
  have T := (C8_inject_prompt_frame render0 isLit0 (Option.some "TOK") req_one_turn).2.2.2
    "TOK" [tool_time] "TOOLS " rfl rfl (by simp) rfl
  simpa using T.2 { role := "user", content := "hi" } [] rfl

/-! ## C7 -/

/-- C7: a literal `"auto"` tool choice renders exactly as an absent/`None`
choice — `renderToolsList` normalizes `"auto"` to `None` and renders the full
tool set with the unset choice — and consequently `inject_prompt` produces the
same outcome (same exception state, same final conversation) for two requests
differing only in `tool_choice = "auto"` versus `tool_choice` absent. -/
theorem C7_auto_choice_equals_absent
    (render : Option String → List ChatCompletionToolParam → String)
    (isLit : String → Bool) (tok : Option String) (req : ChatCompletionRequest)
    (tools : List ChatCompletionToolParam) :
    renderToolsList render (Option.some "auto") tools
      = renderToolsList render Option.none tools ∧
    renderToolsList render (Option.some "auto") tools
      = Option.some (render Option.none tools) ∧
    (inject_prompt render isLit tok { req with tool_choice := Option.some "auto" }).1
      = (inject_prompt render isLit tok { req with tool_choice := Option.none }).1 ∧
    (inject_prompt render isLit tok { req with tool_choice := Option.some "auto" }).2.messages
      = (inject_prompt render isLit tok { req with tool_choice := Option.none }).2.messages := by
  have hsel : ∀ tools2 : List ChatCompletionToolParam,
      renderToolsList render (select_tool_choice isLit (Option.some "auto")) tools2
        = renderToolsList render Option.none tools2 := by
    intro tools2
    cases hl : isLit "auto" with
    | true => simp [select_tool_choice, hl]
    | false => simp [select_tool_choice, hl, renderToolsList]
  refine ⟨by simp [renderToolsList], by simp [renderToolsList], ?_⟩
  cases hT : req.tools with
  | none =>
    simp [inject_prompt, hT]
  | some tools2 =>
    cases tok with
    | none => simp [inject_prompt, hT]
    | some tokS =>
      by_cases hlen : tools2 = []
      · subst hlen; simp [inject_prompt, hT]
      · have hA := inject_prompt_with_tools render isLit tokS
          { req with tool_choice := Option.some "auto" } tools2 (by simp [hT]) hlen
        have hB := inject_prompt_with_tools render isLit tokS
          { req with tool_choice := Option.none } tools2 (by simp [hT]) hlen
        rw [hT] at hA hB
        rw [hA, hB]
        have : renderToolsList render
            (select_tool_choice isLit (Option.some "auto")) tools2
            = renderToolsList render (select_tool_choice isLit Option.none) tools2 := by
          rw [hsel]; rfl
        rw [this]
        cases renderToolsList render (select_tool_choice isLit Option.none) tools2 with
        | none =>
          cases hm : req.messages with
          | str s => simp
          | list ml => cases ml <;> simp
        | some text =>
          cases hm : req.messages with
          | str s => simp
          | list ml => cases ml <;> simp

/-! ## C2 -/

/-- C2: the claim (and the spec) promise that `make_calls_list` never raises
and silently drops every segment that fails to decode or decodes to something
lacking a `call` key.  The code only catches `json.decoder.JSONDecodeError`:
on the buffer content `"0"` — one segment which `json.loads` decodes to the
integer `0` — the membership test `"call" in call_dict` raises an uncaught
`TypeError` and aborts the loop.  This theorem evaluates the embedded code at
that failing input. -/
theorem C2_make_calls_list_raises (loads : String → Option PyVal)
    (h : loads "0" = Option.some (PyVal.int 0)) :
    make_calls_list loads "TOK" "0" [] = (Option.some PyError.typeError, []) := by
  have hsplit : py_split "0" "TOK" = Option.some ["0"] := rfl
  have hlen : "0".length ≠ 0 := by decide
  simp [make_calls_list, hsplit, make_calls_list_loop, h, py_in, hlen]

/-- C2, witness: the failing evaluation at the concrete decoder
(`json.loads "0" = 0`). -/
theorem C2_make_calls_list_raises_witness :
    dec_scalar "0" = Option.some (PyVal.int 0) ∧
    make_calls_list dec_scalar "TOK" "0" [] = (Option.some PyError.typeError, []) :=
  ⟨rfl, C2_make_calls_list_raises dec_scalar rfl⟩

/-! ## C10 -/

/-- C10, counterexample: the buffer content consisting of the six-character
JSON text `"call"` decodes to the Python *string* `call`; the membership test
`"call" in "call"` is a substring test and succeeds, so a non-dict value —
one that does not contain a `call` key — is appended to the calls list, and
the name lookup `call["call"]` then raises `TypeError` at the in-bounds
index 0. -/
theorem C10_counterexample :
    make_calls_list dec_strcall "TOK" "\"call\"" [] = (Option.none, [PyVal.str "call"]) ∧
    to_ChatCompletionMessageToolCall dumps0 [PyVal.str "call"] 0
      = Except.error PyError.typeError :=
  ⟨rfl, rfl⟩

/-- Invariant of the `make_calls_list` loop: a value is appended only when
the membership test `"call" in value` returned `True`, so if every element of
the accumulator passes that test, every element of the final list does too
(also on the aborted-by-exception path, where the accumulator so far is the
final state of the mutated list). -/
lemma make_calls_list_loop_invariant (loads : String → Option PyVal)
    (segments : List String) (acc : List PyVal)
    (hacc : ∀ x ∈ acc, py_in "call" x = Except.ok true) :
    ∀ x ∈ (make_calls_list_loop loads segments acc).2, py_in "call" x = Except.ok true := by
  induction segments generalizing acc with
  | nil => simpa [make_calls_list_loop] using hacc
  | cons v rest ih =>
    by_cases hv : v.length ≠ 0
    · cases hl : loads v with
      | none =>
        simp only [make_calls_list_loop, if_pos hv, hl]
        exact ih acc hacc
      | some cd =>
        cases hin : py_in "call" cd with
        | error e =>
          simp only [make_calls_list_loop, if_pos hv, hl, hin]
          exact hacc
        | ok b =>
          cases b with
          | true =>
            simp only [make_calls_list_loop, if_pos hv, hl, hin]
            refine ih (acc ++ [cd]) ?_
            intro x hx
            rcases List.mem_append.mp hx with hx2 | hx2
            · exact hacc x hx2
            · rcases List.mem_singleton.mp hx2 with rfl
              exact hin
          | false =>
            simp only [make_calls_list_loop, if_pos hv, hl, hin]
            exact ih acc hacc
    · simp only [make_calls_list_loop, if_neg hv]
      exact ih acc hacc

/-- C10, amended: every element ever appended to the capture's calls list
satisfies Python's membership test `"call" in element` (`make_calls_list`
appends nothing else, starting from any state satisfying it; `reset` only
removes elements).  For a *dict* element that test means the `call` key is
present, and the name lookup `call["call"]` succeeds on it — but the test
also passes for non-dict decoded values (a JSON string with `call` as a
substring, a JSON list containing `"call"`), which can therefore be appended,
and on those the in-bounds lookup raises `TypeError`
(see the counterexample). -/
theorem C10_amended_calls_list_invariant (loads : String → Option PyVal)
    (tok content : String) (init : List PyVal)
    (hinit : ∀ x ∈ init, py_in "call" x = Except.ok true) :
    (∀ x ∈ (make_calls_list loads tok content init).2, py_in "call" x = Except.ok true) ∧
    (∀ c b x, x ∈ (reset c b).calls_list → x ∈ c.calls_list) ∧
    (∀ x d, x = PyVal.dict d → py_in "call" x = Except.ok true →
      py_getitem x "call" = Except.ok ((List.lookup "call" d).getD PyVal.none)) := by
  refine ⟨?_, ?_, ?_⟩
  · unfold make_calls_list
    cases py_split content tok with
    | none => simpa using hinit
    | some segments => exact make_calls_list_loop_invariant loads segments init hinit
  · intro c b x hx
    cases b with
    | true => simp [reset] at hx
    | false => simpa [reset] using hx
  · intro x d hd hin
    subst hd
    simp only [py_in] at hin
    have hsome : (List.lookup "call" d).isSome = true := by
      exact Except.ok.injEq _ _ ▸ (by injection hin)
    rcases Option.isSome_iff_exists.mp hsome with ⟨v, hv⟩
    simp [py_getitem, hv]

/-- C10, witness for the amended theorem: on the well-formed stored call
`{"call": "a"}` the dict membership test holds and the name lookup succeeds. -/
theorem C10_amended_calls_list_invariant_witness :
    py_getitem call_a "call" = Except.ok (PyVal.str "a") := by
  have T := C10_amended_calls_list_invariant dec_strcall "TOK" "" [] (by simp)
  simpa using T.2.2 call_a [("call", PyVal.str "a")] rfl rfl

/-! ## Evaluation lemmas for the converter -/

/-- `py_list_get` at a non-negative in-bounds index. -/
lemma py_list_get_nonneg (l : List PyVal) (i : Nat) (h : i < l.length) :
    py_list_get l (i : Int) = Except.ok (l.getD i PyVal.none) := by
  have h1 : (0 : Int) ≤ (i : Int) ∧ (i : Int) < (l.length : Int) :=
    ⟨by exact_mod_cast Nat.zero_le i, by exact_mod_cast h⟩
  simp [py_list_get, h1]

/-- `py_list_get` at a negative index within `-len ≤ i < 0` wraps around. -/
lemma py_list_get_neg (l : List PyVal) (i : Int)
    (h1 : -(l.length : Int) ≤ i) (h2 : i < 0) :
    py_list_get l i = Except.ok (l.getD (i + (l.length : Int)).toNat PyVal.none) := by
  have hn : ¬(0 ≤ i ∧ i < (l.length : Int)) := by omega
  rw [py_list_get, if_neg hn, if_pos ⟨h1, h2⟩]

/-- `py_list_get` below `-len` raises `IndexError`. -/
lemma py_list_get_oob (l : List PyVal) (i : Int) (h : i < -(l.length : Int)) :
    py_list_get l i = Except.error PyError.indexError := by
  have hn1 : ¬(0 ≤ i ∧ i < (l.length : Int)) := by omega
  have hn2 : ¬(-(l.length : Int) ≤ i ∧ i < 0) := by omega
  rw [py_list_get, if_neg hn1, if_neg hn2]

/-- Any index in `-len ≤ i < len` of a non-empty list retrieves an element of
the list. -/
lemma py_list_get_mem (l : List PyVal) (i : Int)
    (h1 : -(l.length : Int) ≤ i) (h2 : i < (l.length : Int)) :
    ∃ v, py_list_get l i = Except.ok v ∧ v ∈ l := by
  by_cases h0 : 0 ≤ i
  · have hj : i = ((i.toNat : Nat) : Int) := (Int.toNat_of_nonneg h0).symm
    have hjl : i.toNat < l.length := by omega
    rw [hj, py_list_get_nonneg l i.toNat hjl]
    refine ⟨_, rfl, ?_⟩
    rw [List.getD_eq_getElem _ _ hjl]
    exact List.getElem_mem hjl
  · push_neg at h0
    rw [py_list_get_neg l i h1 h0]
    have hjl : (i + (l.length : Int)).toNat < l.length := by omega
    refine ⟨_, rfl, ?_⟩
    rw [List.getD_eq_getElem _ _ hjl]
    exact List.getElem_mem hjl

/-- Full evaluation of the converter when the retrieved element is a dict
whose `"call"` entry is a string: the record is built, with the `arguments`
field the `json.dumps` of the stored `arguments` value when present and not
`None`, and the empty string otherwise. -/
lemma toCall_eval_dict (dumps : PyVal → String) (calls : List PyVal) (i : Int)
    (d : List (String × PyVal)) (name : String)
    (hguard : calls.length ≠ 0 ∧ i < (calls.length : Int))
    (hget : py_list_get calls i = Except.ok (PyVal.dict d))
    (hname : List.lookup "call" d = Option.some (PyVal.str name)) :
    to_ChatCompletionMessageToolCall dumps calls i = Except.ok (Option.some
      { id := "call_" ++ name ++ "_" ++ toString i,
        type := "function",
        function := { name := name,
                      arguments := match List.lookup "arguments" d with
                                   | Option.none => ""
                                   | Option.some PyVal.none => ""
                                   | Option.some a => dumps a } }) := by
  rw [to_ChatCompletionMessageToolCall, if_pos hguard, hget]
  cases hl : List.lookup "arguments" d with
  | none => simp [py_in, py_getitem, py_as_str, hl, hname]
  | some a => cases a <;> simp [py_in, py_getitem, py_as_str, hl, hname]

/-- The converter propagates an `IndexError` from the subscript. -/
lemma toCall_eval_err (dumps : PyVal → String) (calls : List PyVal) (i : Int)
    (e : PyError) (hguard : calls.length ≠ 0 ∧ i < (calls.length : Int))
    (hget : py_list_get calls i = Except.error e) :
    to_ChatCompletionMessageToolCall dumps calls i = Except.error e := by
  rw [to_ChatCompletionMessageToolCall, if_pos hguard, hget]

/-! ## C3 -/

/-- C3, counterexample: at the index `-1` — not a valid zero-based position —
the guard `call_id < len(calls_list)` still passes and Python's negative
indexing retrieves the *last* element, so a record is returned instead of
`None` (its id even embeds the `-1`). -/
theorem C3_counterexample :
    ¬(0 ≤ (-1 : Int) ∧ (-1 : Int) < ([call_a].length : Int)) ∧
    to_ChatCompletionMessageToolCall dumps0 [call_a] (-1)
      = Except.ok (Option.some
          { id := "call_a_-1", type := "function",
            function := { name := "a", arguments := "" } }) :=
  ⟨by decide, rfl⟩

/-- C3, amended: for a calls list of well-formed stored calls,
`to_ChatCompletionMessageToolCall(calls, i)` returns `None` exactly when the
list is empty or `i ≥ len(calls)`; for the remaining out-of-claim indices it
does *not* return `None`: every `-len ≤ i < len` (Python's negative indexing
included) returns a record, and `i < -len` on a non-empty list raises
`IndexError`. -/
theorem C3_amended_none_iff (dumps : PyVal → String) (calls : List PyVal) (i : Int)
    (hwf : ∀ v ∈ calls, WFCall v) :
    (to_ChatCompletionMessageToolCall dumps calls i = Except.ok Option.none
      ↔ (calls = [] ∨ (calls.length : Int) ≤ i)) ∧
    ((-(calls.length : Int) ≤ i ∧ i < (calls.length : Int)) →
      ∃ r, to_ChatCompletionMessageToolCall dumps calls i = Except.ok (Option.some r)) ∧
    ((calls ≠ [] ∧ i < -(calls.length : Int)) →
      to_ChatCompletionMessageToolCall dumps calls i = Except.error PyError.indexError) := by
  have hsucc : (-(calls.length : Int) ≤ i ∧ i < (calls.length : Int)) →
      ∃ r, to_ChatCompletionMessageToolCall dumps calls i = Except.ok (Option.some r) := by
    rintro ⟨h1, h2⟩
    obtain ⟨v, hv, hmem⟩ := py_list_get_mem calls i h1 h2
    obtain ⟨d, name, rfl, hname⟩ := hwf v hmem
    have hne : calls.length ≠ 0 := by
      intro h0
      rw [h0] at h2
      omega
    exact ⟨_, toCall_eval_dict dumps calls i d name ⟨hne, h2⟩ hv hname⟩
  have herr : (calls ≠ [] ∧ i < -(calls.length : Int)) →
      to_ChatCompletionMessageToolCall dumps calls i = Except.error PyError.indexError := by
    rintro ⟨h1, h2⟩
    have hne : calls.length ≠ 0 := fun h0 => h1 (List.length_eq_zero.mp h0)
    have hlt : i < (calls.length : Int) := by omega
    exact toCall_eval_err dumps calls i PyError.indexError ⟨hne, hlt⟩
      (py_list_get_oob calls i h2)
  refine ⟨⟨?_, ?_⟩, hsucc, herr⟩
  · intro hnone
    by_contra hcon
    push_neg at hcon
    obtain ⟨hne, hlt⟩ := hcon
    by_cases hlo : -(calls.length : Int) ≤ i
    · obtain ⟨r, hr⟩ := hsucc ⟨hlo, hlt⟩
      rw [hr] at hnone
      simp at hnone
    · push_neg at hlo
      rw [herr ⟨hne, hlo⟩] at hnone
      simp at hnone
  · intro hcase
    have hguard : ¬(calls.length ≠ 0 ∧ i < (calls.length : Int)) := by
      rcases hcase with h | h
      · intro hc
        exact hc.1 (by rw [h]; rfl)
      · intro hc
        omega
    rw [to_ChatCompletionMessageToolCall, if_neg hguard]

/-- C3, witness for the amended theorem: at index `5` of the one-element list
the converter returns `None`. -/
theorem C3_amended_none_iff_witness :
    to_ChatCompletionMessageToolCall dumps0 [call_a] 5 = Except.ok Option.none := by
  have T := C3_amended_none_iff dumps0 [call_a] 5 ?_
  · exact T.1.mpr (Or.inr (by decide))
  · intro v hv
    rcases List.mem_singleton.mp hv with rfl
    exact ⟨[("call", PyVal.str "a")], "a", rfl, rfl⟩

/-! ## C4 -/

/-- C4: for an in-bounds index whose stored call is a well-formed dict, the
returned record's `arguments` field is the `json.dumps` encoding of the raw
`arguments` map when that map is present, and the empty string — not `None`,
the field is always set — when the key is absent. -/
theorem C4_arguments_field (dumps : PyVal → String) (calls : List PyVal) (i : Nat)
    (d : List (String × PyVal)) (name : String) (r : ChatCompletionMessageToolCall)
    (hi : i < calls.length)
    (hv : calls.getD i PyVal.none = PyVal.dict d)
    (hname : List.lookup "call" d = Option.some (PyVal.str name))
    (hr : to_ChatCompletionMessageToolCall dumps calls (i : Int)
      = Except.ok (Option.some r)) :
    (∀ a, List.lookup "arguments" d = Option.some (PyVal.dict a) →
      r.function.arguments = dumps (PyVal.dict a)) ∧
    (List.lookup "arguments" d = Option.none → r.function.arguments = "") := by
  have hguard : calls.length ≠ 0 ∧ (i : Int) < (calls.length : Int) :=
    ⟨by omega, by exact_mod_cast hi⟩
  have hget : py_list_get calls (i : Int) = Except.ok (PyVal.dict d) := by
    rw [py_list_get_nonneg calls i hi, hv]
  have hE := toCall_eval_dict dumps calls (i : Int) d name hguard hget hname
  rw [hE] at hr
  injection hr with hr2
  injection hr2 with hr3
  subst hr3
  constructor
  · intro a ha
    simp [ha]
  · intro ha
    simp [ha]

/-- C4, witness: on the stored call `{"call": "b", "arguments": {"x": 1}}` at
index 0 the record's `arguments` field is the `dumps` encoding of the map. -/
theorem C4_arguments_field_witness :
    ({ id := "call_b_0", type := "function",
       function := { name := "b", arguments := "DUMPED" } } :
      ChatCompletionMessageToolCall).function.arguments
      = dumps0 (PyVal.dict [("x", PyVal.int 1)]) :=
  (C4_arguments_field dumps0 [call_b] 0
    [("call", PyVal.str "b"), ("arguments", PyVal.dict [("x", PyVal.int 1)])] "b"
    { id := "call_b_0", type := "function",
      function := { name := "b", arguments := "DUMPED" } }
    (by decide) rfl rfl rfl).1 [("x", PyVal.int 1)] rfl

/-! ## C5 -/

/-- C5: for an in-bounds index whose stored call is a well-formed dict, the
returned record's `id` is exactly `"call_" + name + "_" + i` with `name` the
raw `call` value and `i` the zero-based position.  The id is a function of
the calls list and the index alone — the converter reads no other state — so
repeated invocations on the same calls sequence return identical ids. -/
theorem C5_stable_id (dumps : PyVal → String) (calls : List PyVal) (i : Nat)
    (d : List (String × PyVal)) (name : String) (r : ChatCompletionMessageToolCall)
    (hi : i < calls.length)
    (hv : calls.getD i PyVal.none = PyVal.dict d)
    (hname : List.lookup "call" d = Option.some (PyVal.str name))
    (hr : to_ChatCompletionMessageToolCall dumps calls (i : Int)
      = Except.ok (Option.some r)) :
    r.id = "call_" ++ name ++ "_" ++ toString i := by
  have hguard : calls.length ≠ 0 ∧ (i : Int) < (calls.length : Int) :=
    ⟨by omega, by exact_mod_cast hi⟩
  have hget : py_list_get calls (i : Int) = Except.ok (PyVal.dict d) := by
    rw [py_list_get_nonneg calls i hi, hv]
  have hE := toCall_eval_dict dumps calls (i : Int) d name hguard hget hname
  rw [hE] at hr
  injection hr with hr2
  injection hr2 with hr3
  subst hr3
  rfl

/-- C5, witness: the record for `{"call": "a"}` at position 0 has id
`call_a_0`. -/
theorem C5_stable_id_witness :
    ({ id := "call_a_0", type := "function",
       function := { name := "a", arguments := "" } } :
      ChatCompletionMessageToolCall).id = "call_" ++ "a" ++ "_" ++ toString 0 :=
  C5_stable_id dumps0 [call_a] 0 [("call", PyVal.str "a")] "a"
    { id := "call_a_0", type := "function",
      function := { name := "a", arguments := "" } }
    (by decide) rfl rfl rfl

/-! ## C6 -/

/-- One step of the delta converter on a known one-shot result. -/
lemma toDelta_of_toCall (dumps : PyVal → String) (calls : List PyVal) (i : Int)
    (x : Option ChatCompletionMessageToolCall)
    (h : to_ChatCompletionMessageToolCall dumps calls i = Except.ok x) :
    to_ChoiceDeltaToolCall dumps calls i = Except.ok (x.map (delta_of_mesg i)) := by
  cases x <;> simp [to_ChoiceDeltaToolCall, h]

/-- A successful `mapExceptList` returns one element per index. -/
lemma mapExceptList_length {A : Type} (f : Nat → Except PyError A) :
    ∀ (idxs : List Nat) (l : List A),
      mapExceptList f idxs = Except.ok l → l.length = idxs.length := by
  intro idxs
  induction idxs with
  | nil =>
    intro l h
    injection h with h2
    rw [← h2]
    rfl
  | cons i rest ih =>
    intro l h
    simp only [mapExceptList] at h
    cases hc : f i with
    | error e => rw [hc] at h; simp at h
    | ok x =>
      rw [hc] at h
      cases hr : mapExceptList f rest with
      | error e => rw [hr] at h; simp at h
      | ok xs =>
        rw [hr] at h
        injection h with h2
        rw [← h2]
        simp [ih xs hr]

/-- When the one-shot loop succeeds on a list of indices, the delta loop
returns pointwise the same records with the index attached. -/
lemma mapExceptList_delta (dumps : PyVal → String) (calls : List PyVal) :
    ∀ (idxs : List Nat) (l : List (Option ChatCompletionMessageToolCall)),
      mapExceptList (fun j => to_ChatCompletionMessageToolCall dumps calls (j : Int)) idxs
        = Except.ok l →
      mapExceptList (fun j => to_ChoiceDeltaToolCall dumps calls (j : Int)) idxs
        = Except.ok (List.zipWith (fun j o => o.map (delta_of_mesg (j : Int))) idxs l) := by
  intro idxs
  induction idxs with
  | nil =>
    intro l h
    injection h with h2
    rw [← h2]
    rfl
  | cons i rest ih =>
    intro l h
    simp only [mapExceptList] at h
    cases hc : to_ChatCompletionMessageToolCall dumps calls (i : Int) with
    | error e => rw [hc] at h; simp at h
    | ok x =>
      rw [hc] at h
      cases hr : mapExceptList
          (fun j => to_ChatCompletionMessageToolCall dumps calls (j : Int)) rest with
      | error e => rw [hr] at h; simp at h
      | ok xs =>
        rw [hr] at h
        injection h with h2
        rw [← h2]
        simp only [mapExceptList, toDelta_of_toCall dumps calls (i : Int) x hc, ih xs hr]
        rfl

/-- C6: the delta converter returns `None` exactly when the one-shot
converter does, and otherwise the same payload (id, type, function) with the
explicit `index` field set to the queried position; on success the two list
conversions have the same ordering — the delta list is the one-shot list with
each position's index attached — and both have one entry per captured call. -/
theorem C6_delta_matches_one_shot (dumps : PyVal → String) (calls : List PyVal)
    (i : Int) (l : List (Option ChatCompletionMessageToolCall)) :
    (to_ChoiceDeltaToolCall dumps calls i = Except.ok Option.none
      ↔ to_ChatCompletionMessageToolCall dumps calls i = Except.ok Option.none) ∧
    (∀ m, to_ChatCompletionMessageToolCall dumps calls i = Except.ok (Option.some m) →
      to_ChoiceDeltaToolCall dumps calls i
        = Except.ok (Option.some
            { index := i, id := m.id, type := m.type, function := m.function })) ∧
    (to_ChatCompletionMessageToolCallList dumps calls = Except.ok l →
      l.length = calls.length ∧
      to_ChoiceDeltaToolCallList dumps calls
        = Except.ok (List.zipWith (fun j o => o.map (delta_of_mesg (j : Int)))
            (List.range calls.length) l) ∧
      (∀ l2, to_ChoiceDeltaToolCallList dumps calls = Except.ok l2 →
        l2.length = calls.length)) := by
  refine ⟨⟨?_, ?_⟩, ?_, ?_⟩
  · intro h
    cases hc : to_ChatCompletionMessageToolCall dumps calls i with
    | error e => simp [to_ChoiceDeltaToolCall, hc] at h
    | ok x =>
      rw [toDelta_of_toCall dumps calls i x hc] at h
      injection h with h2
      rw [Option.map_eq_none'] at h2
      rw [h2]
  · intro h
    rw [toDelta_of_toCall dumps calls i Option.none h]
    rfl
  · intro m h
    rw [toDelta_of_toCall dumps calls i (Option.some m) h]
    rfl
  · intro h
    have h1 := mapExceptList_length _ (List.range calls.length) l h
    refine ⟨by simpa using h1, ?_, ?_⟩
    · exact mapExceptList_delta dumps calls (List.range calls.length) l h
    · intro l2 h2
      have h3 := mapExceptList_length _ (List.range calls.length) l2 h2
      simpa using h3

/-- C6, witness: on the two stored calls `{"call": "a"}` and
`{"call": "b", "arguments": {...}}` the delta list carries the same records
as the one-shot list with indices 0 and 1 attached. -/
theorem C6_delta_matches_one_shot_witness :
    to_ChoiceDeltaToolCallList dumps0 [call_a, call_b]
      = Except.ok
          [Option.some { index := 0, id := "call_a_0", type := "function",
                         function := { name := "a", arguments := "" } },
           Option.some { index := 1, id := "call_b_1", type := "function",
                         function := { name := "b", arguments := "DUMPED" } }] := by
  have T := (C6_delta_matches_one_shot dumps0 [call_a, call_b] 0
    [Option.some { id := "call_a_0", type := "function",
                   function := { name := "a", arguments := "" } },
     Option.some { id := "call_b_1", type := "function",
                   function := { name := "b", arguments := "DUMPED" } }]).2.2 rfl
  exact T.2.1.trans rfl

end VllmTools
